import Mathlib

/-!
Verification of the theme-preference controller of the `frontstuff` blog
(`src/assets/js/App.js`), a light/dark theme toggle persisted to
`localStorage`.

The embedding is shallow and executable:

* `JsValue` models the JavaScript values the controller can hold
  (`undefined`, `null`, booleans, integer numbers and strings — the scalar
  fragment of JSON; the controller itself only ever stores the string
  literals `"light"` and `"dark"`, and compares values against those two
  strings with strict equality, for which the structural equality of
  `JsValue` agrees with JavaScript's `===`).
* `jsonParse` / `jsonStringify` model the platform builtins `JSON.parse`
  and `JSON.stringify` on that scalar fragment.  `jsonParse` returns
  `Except JsErr JsValue`; `.error` models a thrown `SyntaxError`.
* `Store` models `localStorage` as a partial map from keys to the raw
  string contents; `Dom` models the two class lists the controller
  mutates (`document.body.classList` and the class list of the
  `#theme-toggle` element), with `classAdd` / `classRemove` following
  `DOMTokenList.add` / `DOMTokenList.remove` semantics.
* The definitions in `namespace App` are line-by-line translations of the
  functions of `src/assets/js/App.js`; the `writeFails` flag models an
  environment in which `localStorage.setItem` throws (quota exceeded,
  storage disabled), which is the only failure the source's `ls.set`
  catches.
-/

/-- A JavaScript value, restricted to the scalar fragment the controller
manipulates.  `undef` is JavaScript's `undefined` (distinct from `null`). -/
inductive JsValue where
  | undef : JsValue
  | null : JsValue
  | bool : Bool → JsValue
  | num : Int → JsValue
  | str : String → JsValue
deriving DecidableEq, Repr

/-- The only error `JSON.parse` raises. -/
inductive JsErr where
  | parseErr : JsErr
deriving DecidableEq, Repr

/-- Skip JSON whitespace. -/
def skipWs : List Char → List Char
  | [] => []
  | c :: cs => if c = ' ' ∨ c = '\t' ∨ c = '\n' ∨ c = '\r' then skipWs cs else c :: cs

/-- Check that `cs` starts with the literal `lit` and return the remainder. -/
def expectLit : List Char → List Char → Option (List Char)
  | [], cs => some cs
  | _, [] => none
  | l :: ls, c :: cs => if c = l then expectLit ls cs else none

/-- Parse the body of a JSON string literal (the opening quote already
consumed), fuel-bounded; returns the decoded characters and the remainder
after the closing quote.  Escapes cover the single-character JSON escapes;
`\uXXXX` is outside the modelled fragment. -/
def parseStrChars : Nat → List Char → Option (List Char × List Char)
  | _, [] => none
  | 0, _ => none
  | fuel + 1, c :: cs =>
    if c = '"' then some ([], cs)
    else if c = '\\' then
      match cs with
      | [] => none
      | e :: cs' =>
        let ec? : Option Char :=
          if e = '"' then some '"'
          else if e = '\\' then some '\\'
          else if e = '/' then some '/'
          else if e = 'n' then some '\n'
          else if e = 't' then some '\t'
          else if e = 'r' then some '\r'
          else if e = 'b' then some (Char.ofNat 8)
          else if e = 'f' then some (Char.ofNat 12)
          else none
        match ec? with
        | none => none
        | some ec =>
          match parseStrChars fuel cs' with
          | none => none
          | some (s, rest) => some (ec :: s, rest)
    else
      match parseStrChars fuel cs with
      | none => none
      | some (s, rest) => some (c :: s, rest)

/-- Split a leading run of decimal digits. -/
def takeDigits : List Char → List Char × List Char
  | [] => ([], [])
  | c :: cs =>
    if c.isDigit then
      let (ds, rest) := takeDigits cs
      (c :: ds, rest)
    else ([], c :: cs)

/-- Parse a JSON integer (optional minus sign, no leading zeros). -/
def parseIntChars (cs : List Char) : Option (JsValue × List Char) :=
  let (neg, cs') := match cs with
    | '-' :: t => (true, t)
    | _ => (false, cs)
  let (ds, rest) := takeDigits cs'
  if ds = [] then none
  else if ds.head? = some '0' ∧ ds.length > 1 then none
  else
    let n : Nat := ds.foldl (fun a c => a * 10 + (c.toNat - 48)) 0
    some (JsValue.num (if neg then -(n : Int) else (n : Int)), rest)

/-- Parse one JSON value from the front of `cs`. -/
def parseVal (cs : List Char) : Option (JsValue × List Char) :=
  match skipWs cs with
  | [] => none
  | c :: rest =>
    if c = 'n' then (expectLit ['u', 'l', 'l'] rest).map (fun r => (JsValue.null, r))
    else if c = 't' then (expectLit ['r', 'u', 'e'] rest).map (fun r => (JsValue.bool true, r))
    else if c = 'f' then (expectLit ['a', 'l', 's', 'e'] rest).map (fun r => (JsValue.bool false, r))
    else if c = '"' then
      (parseStrChars (rest.length + 1) rest).map (fun p => (JsValue.str (String.mk p.1), p.2))
    else if c = '-' ∨ c.isDigit then parseIntChars (c :: rest)
    else none

/-- Model of the platform's `JSON.parse` on the scalar JSON fragment:
either the parsed value, or `.error .parseErr` for a thrown
`SyntaxError` (anything that is not a single well-formed scalar JSON
value, e.g. the raw content `blue`). -/
def jsonParse (raw : String) : Except JsErr JsValue :=
  match parseVal raw.data with
  | none => Except.error JsErr.parseErr
  | some (v, rest) =>
    match skipWs rest with
    | [] => Except.ok v
    | _ :: _ => Except.error JsErr.parseErr

/-- JSON string escaping for the two characters that must be escaped. -/
def escapeChar (c : Char) : List Char :=
  if c = '"' then ['\\', '"'] else if c = '\\' then ['\\', '\\'] else [c]

/-- Model of `JSON.stringify` composed with `localStorage.setItem`'s
string coercion: `JSON.stringify(undefined)` is `undefined`, which
`setItem` coerces to the raw string `"undefined"`. -/
def jsonStringify : JsValue → String
  | JsValue.undef => "undefined"
  | JsValue.null => "null"
  | JsValue.bool true => "true"
  | JsValue.bool false => "false"
  | JsValue.num n => toString n
  | JsValue.str s => "\"" ++ String.mk (s.data.foldr (fun c acc => escapeChar c ++ acc) []) ++ "\""

/-- `localStorage` contents: raw string value per key, `none` when the key
is absent. -/
def Store : Type := String → Option String

/-- Pointwise store update, as performed by `localStorage.setItem`. -/
def storeSet (st : Store) (key val : String) : Store :=
  fun k => if k = key then some val else st k

/-- The two class lists the controller mutates: `document.body.classList`
and the class list of the `#theme-toggle` element. -/
structure Dom where
  body : List String
  toggleCtl : List String
deriving DecidableEq, Repr

/-- `DOMTokenList.remove`: removes every occurrence of the token. -/
def classRemove (cl : List String) (tok : String) : List String :=
  cl.filter (fun t => t ≠ tok)

/-- `DOMTokenList.add`: appends the token unless already present. -/
def classAdd (cl : List String) (tok : String) : List String :=
  if tok ∈ cl then cl else cl ++ [tok]

namespace App

/-- `var THEMES = ['light', 'dark']` -/
def THEMES : List String := ["light", "dark"]

/-- The whole mutable state the module closes over: `CURRENT_THEME`, the
document's class lists and the `localStorage` contents. -/
structure AppState where
  currentTheme : JsValue
  dom : Dom
  store : Store

/-- `ls.get`: `JSON.parse(localStorage.getItem(key))`, with no try/catch.
When the key is absent `getItem` returns `null`, which `JSON.parse`
coerces to the string `"null"` and parses back to the JSON value `null`;
a thrown `SyntaxError` is the `.error` branch. -/
def lsGet (st : Store) (key : String) : Except JsErr JsValue :=
  jsonParse (match st key with
    | none => "null"
    | some raw => raw)

/-- `ls.set`: `try { localStorage.setItem(key, JSON.stringify(value)); return true }
catch (e) { return false }`.  `writeFails` models an environment where
`setItem` throws (quota exceeded / storage disabled). -/
def lsSet (writeFails : Bool) (st : Store) (key : String) (value : JsValue) : Bool × Store :=
  if writeFails then (false, st) else (true, storeSet st key (jsonStringify value))

/-- `isTheme`: `THEMES.indexOf(theme) !== -1` (strict equality against the
two member strings). -/
def isTheme (v : JsValue) : Bool :=
  THEMES.any (fun t => decide (JsValue.str t = v))

/-- `setCurrentTheme`: `if (isTheme(theme)) return theme` — returns the
theme when valid and `undefined` otherwise.  Present in the source but
never called by any other function. -/
def setCurrentTheme (theme : JsValue) : JsValue :=
  if isTheme theme then theme else JsValue.undef

/-- `toggleCurrentTheme`: `THEMES.find(theme => theme !== CURRENT_THEME)` —
the first member string strictly-unequal to the current value, or
`undefined` (`none`) if there is none. -/
def toggleCurrentTheme (cur : JsValue) : Option String :=
  THEMES.find? (fun t => decide (JsValue.str t ≠ cur))

/-- `Array.prototype.find`'s result as a JavaScript value: the element, or
`undefined` when nothing matched. -/
def foundValue : Option String → JsValue
  | none => JsValue.undef
  | some s => JsValue.str s

/-- `applyLayout`: when `isTheme(theme)`, removes both theme class tokens
from the body and from the toggle control, then adds the pair for `theme`;
otherwise does nothing.  The inner `match` extracts the member string —
the `isTheme` guard guarantees the argument is one of the two strings. -/
def applyLayout (theme : JsValue) (d : Dom) : Dom :=
  if isTheme theme then
    let d' := THEMES.foldl
      (fun acc t =>
        { body := classRemove acc.body ("theme--" ++ t)
          toggleCtl := classRemove acc.toggleCtl ("theme__switch--" ++ t) }) d
    match theme with
    | JsValue.str s =>
      { body := classAdd d'.body ("theme--" ++ s)
        toggleCtl := classAdd d'.toggleCtl ("theme__switch--" ++ s) }
    | _ => d'
  else d

/-- `saveTheme`: `if (isTheme(theme)) return ls.set('theme', theme)` —
returns the write's success indicator when the theme is valid, and
`undefined` (`none`), without touching the store, otherwise. -/
def saveTheme (theme : JsValue) (writeFails : Bool) (st : Store) : Option Bool × Store :=
  if isTheme theme then
    let r := lsSet writeFails st "theme" theme
    (some r.1, r.2)
  else (none, st)

/-- `switchTheme`: `CURRENT_THEME = theme; applyLayout(CURRENT_THEME);
saveTheme(CURRENT_THEME)`.  The assignment is unconditional. -/
def switchTheme (theme : JsValue) (writeFails : Bool) (s : AppState) : AppState :=
  let dom' := applyLayout theme s.dom
  let r := saveTheme theme writeFails s.store
  { currentTheme := theme, dom := dom', store := r.2 }

/-- One click on the toggle control, as bound by `bind`:
`switchTheme(toggleCurrentTheme())`. -/
def clickToggle (writeFails : Bool) (s : AppState) : AppState :=
  switchTheme (foundValue (toggleCurrentTheme s.currentTheme)) writeFails s

/-- `init`: `bind(); switchTheme(ls.get('theme'))`.  `bind` only registers
the click listener (modelled by `clickToggle`); a `SyntaxError` thrown by
`ls.get` propagates out of `init`. -/
def init (writeFails : Bool) (s : AppState) : Except JsErr AppState :=
  match lsGet s.store "theme" with
  | Except.error e => Except.error e
  | Except.ok v => Except.ok (switchTheme v writeFails s)

end App

instance : DecidableEq (Except JsErr JsValue) := fun a b =>
  match a, b with
  | Except.ok x, Except.ok y =>
    if h : x = y then isTrue (by rw [h]) else isFalse (by intro hc; cases hc; exact h rfl)
  | Except.error x, Except.error y =>
    if h : x = y then isTrue (by rw [h]) else isFalse (by intro hc; cases hc; exact h rfl)
  | Except.ok _, Except.error _ => isFalse (by intro hc; cases hc)
  | Except.error _, Except.ok _ => isFalse (by intro hc; cases hc)

/-- A storage state holding `raw` under the controller's key `theme` and
nothing else. -/
def storeWith (raw : String) : Store :=
  fun k => if k = "theme" then some raw else none

/-- A storage state with no keys at all (fresh browser profile). -/
def emptyStore : Store := fun _ => none

/-- The page as served: default light classes on body and toggle control. -/
def dom0 : Dom :=
  { body := ["theme--light"], toggleCtl := ["theme__switch--light"] }

/-- The module state right after script evaluation, before `init` runs,
over a storage state holding `raw` under `theme`. -/
def appWith (raw : String) : App.AppState :=
  { currentTheme := JsValue.str "light", dom := dom0, store := storeWith raw }

/-- The module state right after script evaluation over empty storage. -/
def appEmpty : App.AppState :=
  { currentTheme := JsValue.str "light", dom := dom0, store := emptyStore }

/-- `isTheme` holds exactly on the two member strings. -/
theorem isTheme_iff (v : JsValue) :
    App.isTheme v = true ↔ v = JsValue.str "light" ∨ v = JsValue.str "dark" := by
  simp only [App.isTheme, App.THEMES, List.any_cons, List.any_nil, Bool.or_false,
    Bool.or_eq_true, decide_eq_true_eq]
  constructor
  · rintro (h | h)
    · exact Or.inl h.symm
    · exact Or.inr h.symm
  · rintro (h | h)
    · exact Or.inl h.symm
    · exact Or.inr h.symm

/-- A removed token is gone from the class list. -/
theorem not_mem_classRemove_self (l : List String) (a : String) :
    a ∉ classRemove l a := by
  intro h
  rcases List.mem_filter.mp h with ⟨-, hd⟩
  simp at hd

/-- Removing one token does not affect membership of another. -/
theorem mem_classRemove_ne (l : List String) (hba : b ≠ a) :
    b ∈ classRemove l a ↔ b ∈ l := by
  constructor
  · intro h; exact (List.mem_filter.mp h).1
  · intro h; exact List.mem_filter.mpr ⟨h, by simpa using hba⟩

/-- An added token is in the class list. -/
theorem mem_classAdd_self (l : List String) (a : String) : a ∈ classAdd l a := by
  by_cases h : a ∈ l <;> simp [classAdd, h]

/-- Adding one token does not affect membership of another. -/
theorem mem_classAdd_ne (l : List String) (hba : b ≠ a) :
    b ∈ classAdd l a ↔ b ∈ l := by
  by_cases h : a ∈ l <;> simp [classAdd, h, hba]

/-- Removals of distinct tokens commute. -/
theorem classRemove_comm (l : List String) (a b : String) :
    classRemove (classRemove l a) b = classRemove (classRemove l b) a := by
  simp only [classRemove, List.filter_filter]
  congr 1
  funext t
  exact Bool.and_comm _ _

/-- Removing a token twice is the same as removing it once. -/
theorem classRemove_idem (l : List String) (a : String) :
    classRemove (classRemove l a) a = classRemove l a := by
  simp only [classRemove, List.filter_filter]
  congr 1
  funext t
  exact Bool.and_self _

/-- Removing a token undoes adding it. -/
theorem classRemove_classAdd_self (l : List String) (a : String) :
    classRemove (classAdd l a) a = classRemove l a := by
  by_cases h : a ∈ l
  · simp [classAdd, h]
  · simp [classAdd, h, classRemove, List.filter_append]

/-- Removing one token commutes past adding a different one. -/
theorem classRemove_classAdd_ne (l : List String) (hab : a ≠ b) :
    classRemove (classAdd l a) b = classAdd (classRemove l b) a := by
  by_cases h : a ∈ l
  · have ha : a ∈ classRemove l b := (mem_classRemove_ne l hab).mpr h
    simp [classAdd, h, ha]
  · have ha : a ∉ classRemove l b := fun hc => h ((mem_classRemove_ne l hab).mp hc)
    simp [classAdd, h, ha, classRemove, List.filter_append, hab]

/-- The class list produced by removing both theme tokens and adding the
first one back is a fixed point of doing so again. -/
theorem addRemove_stable_first (l : List String) (a b : String) :
    classAdd (classRemove (classRemove
        (classAdd (classRemove (classRemove l a) b) a) a) b) a
      = classAdd (classRemove (classRemove l a) b) a := by
  have hXa : classRemove (classRemove (classRemove l a) b) a
      = classRemove (classRemove l a) b := by
    rw [classRemove_comm, classRemove_idem]
  have hXb : classRemove (classRemove (classRemove l a) b) b
      = classRemove (classRemove l a) b := classRemove_idem _ _
  rw [classRemove_classAdd_self, hXa, hXb]

/-- Same fixed-point property when the second theme token is the one
added back. -/
theorem addRemove_stable_second (l : List String) (a b : String) (hab : a ≠ b) :
    classAdd (classRemove (classRemove
        (classAdd (classRemove (classRemove l a) b) b) a) b) b
      = classAdd (classRemove (classRemove l a) b) b := by
  have hXa : classRemove (classRemove (classRemove l a) b) a
      = classRemove (classRemove l a) b := by
    rw [classRemove_comm, classRemove_idem]
  have hXb : classRemove (classRemove (classRemove l a) b) b
      = classRemove (classRemove l a) b := classRemove_idem _ _
  rw [classRemove_classAdd_ne _ (Ne.symm hab), hXa, classRemove_classAdd_self, hXb]

/-- `applyLayout` on the valid theme `"light"`, unfolded. -/
theorem applyLayout_light (d : Dom) :
    App.applyLayout (JsValue.str "light") d =
      { body := classAdd (classRemove (classRemove d.body "theme--light")
            "theme--dark") "theme--light"
        toggleCtl := classAdd (classRemove (classRemove d.toggleCtl
            "theme__switch--light") "theme__switch--dark") "theme__switch--light" } := rfl

/-- `applyLayout` on the valid theme `"dark"`, unfolded. -/
theorem applyLayout_dark (d : Dom) :
    App.applyLayout (JsValue.str "dark") d =
      { body := classAdd (classRemove (classRemove d.body "theme--light")
            "theme--dark") "theme--dark"
        toggleCtl := classAdd (classRemove (classRemove d.toggleCtl
            "theme__switch--light") "theme__switch--dark") "theme__switch--dark" } := rfl

/-- Closed form of `toggleCurrentTheme`: the first member string
strictly-unequal to the argument. -/
theorem toggle_eq (v : JsValue) :
    App.toggleCurrentTheme v
      = if v = JsValue.str "light" then some "dark" else some "light" := by
  by_cases hv : v = JsValue.str "light"
  · subst hv; rfl
  · rw [if_neg hv]
    have h1 : decide (JsValue.str "light" ≠ v) = true :=
      decide_eq_true (fun h => hv h.symm)
    simp [App.toggleCurrentTheme, App.THEMES, List.find?, h1]

/-- C1: the claim says that after `init` over a storage state whose value
under `theme` is absent or not a member string, `CURRENT_THEME` is the
default `"light"`.  The code violates this: `switchTheme` assigns
`CURRENT_THEME = theme` unconditionally (the validating `setCurrentTheme`
in the source is never called), so with stored JSON `"blue"` `init`
completes without throwing but leaves `CURRENT_THEME = "blue"`, and with
the key absent it leaves `CURRENT_THEME = null`. -/
theorem init_leaks_invalid_stored_value :
    (App.init false (appWith "\"blue\"")).map App.AppState.currentTheme
        = Except.ok (JsValue.str "blue") ∧
    (App.init false appEmpty).map App.AppState.currentTheme
        = Except.ok JsValue.null ∧
    JsValue.str "blue" ≠ JsValue.str "light" :=
  ⟨rfl, rfl, by decide⟩

/-- C2: the claim says `CURRENT_THEME` is one of the two member strings at
every point after `init` completes.  The code violates this at the point
right after `init` itself: with stored JSON `"blue"` and zero clicks,
`init` completes normally and `CURRENT_THEME` is `"blue"`, which
`isTheme` rejects. -/
theorem invariant_broken_right_after_init :
    (App.init false (appWith "\"blue\"")).map
        (fun s => App.isTheme s.currentTheme) = Except.ok false :=
  rfl

/-- C3 counterexample: `ls.get` is `JSON.parse(localStorage.getItem(key))`
with no try/catch, so on the raw stored content `blue` (present but not
valid JSON) it throws a `SyntaxError` instead of returning an
absent/undefined result as the claim states. -/
theorem lsGet_throws_on_invalid_json :
    App.lsGet (storeWith "blue") "theme" = Except.error JsErr.parseErr :=
  rfl

/-- C3 amended: `ls.get` returns the deserialized value when the stored
content is present and valid JSON, and returns `null` (without throwing)
when the key does not exist; but when the content is present and not
syntactically valid JSON the `JSON.parse` error propagates. -/
theorem lsGet_behavior (st : Store) :
    (st "theme" = none → App.lsGet st "theme" = Except.ok JsValue.null) ∧
    App.lsGet (storeWith "\"dark\"") "theme" = Except.ok (JsValue.str "dark") ∧
    App.lsGet (storeWith "\"blue\"") "theme" = Except.ok (JsValue.str "blue") ∧
    App.lsGet (storeWith "blue") "theme" = Except.error JsErr.parseErr := by
  refine ⟨fun h => ?_, rfl, rfl, rfl⟩
  unfold App.lsGet
  rw [h]
  rfl

/-- C3 witness: over empty storage the key is absent and `ls.get` returns
`null` without throwing. -/
theorem lsGet_behavior_witness :
    emptyStore "theme" = none ∧
    App.lsGet emptyStore "theme" = Except.ok JsValue.null :=
  ⟨rfl, (lsGet_behavior emptyStore).1 rfl⟩

/-- C4: when the underlying store throws on write, `saveTheme` returns the
failure indicator without raising and leaves the store (and a fortiori
`CURRENT_THEME`, which it never touches) unchanged; and a toggle click in
that situation produces exactly the same `CURRENT_THEME` and the same
visible class lists as in the success case. -/
theorem persistFailure_harmless (t : JsValue) (st : Store) (s : App.AppState) :
    (App.isTheme t = true → App.saveTheme t true st = (some false, st)) ∧
    (App.clickToggle true s).currentTheme = (App.clickToggle false s).currentTheme ∧
    (App.clickToggle true s).dom = (App.clickToggle false s).dom := by
  refine ⟨fun h => ?_, rfl, rfl⟩
  simp [App.saveTheme, App.lsSet, h]

/-- C4 witness: concrete failing write of `"light"` over empty storage. -/
theorem persistFailure_harmless_witness :
    App.isTheme (JsValue.str "light") = true ∧
    App.saveTheme (JsValue.str "light") true emptyStore = (some false, emptyStore) :=
  ⟨by decide, (persistFailure_harmless (JsValue.str "light") emptyStore appEmpty).1 (by decide)⟩

/-- C5: starting from a valid current theme, two toggle clicks return
`CURRENT_THEME` to its original value (the toggle is an involution on the
two-member theme set), whether or not storage writes succeed. -/
theorem toggle_involutive (wf : Bool) (s : App.AppState)
    (h : App.isTheme s.currentTheme = true) :
    (App.clickToggle wf (App.clickToggle wf s)).currentTheme = s.currentTheme := by
  rcases (isTheme_iff _).mp h with hv | hv <;>
    simp [App.clickToggle, App.switchTheme, App.foundValue, toggle_eq, hv]

/-- C5 witness: two clicks from the fresh state (current theme `"light"`)
restore `"light"`. -/
theorem toggle_involutive_witness :
    App.isTheme appEmpty.currentTheme = true ∧
    (App.clickToggle false (App.clickToggle false appEmpty)).currentTheme
        = appEmpty.currentTheme :=
  ⟨by decide, toggle_involutive false appEmpty (by decide)⟩

/-- C6: for a valid theme value, a successful `saveTheme` followed by
`ls.get` on the fixed key returns exactly the saved value
(serialize-then-deserialize round trip), over any prior storage state. -/
theorem persist_read_roundtrip (st : Store) (v : JsValue)
    (h : App.isTheme v = true) :
    App.lsGet (App.saveTheme v false st).2 "theme" = Except.ok v := by
  rcases (isTheme_iff v).mp h with hv | hv <;> subst hv <;> rfl

/-- C6 witness: round trip of `"dark"` through empty storage. -/
theorem persist_read_roundtrip_witness :
    App.isTheme (JsValue.str "dark") = true ∧
    App.lsGet (App.saveTheme (JsValue.str "dark") false emptyStore).2 "theme"
        = Except.ok (JsValue.str "dark") :=
  ⟨by decide, persist_read_roundtrip emptyStore (JsValue.str "dark") (by decide)⟩

/-- C7: for a valid theme value and any prior class-list state, after
`applyLayout` exactly the theme's own class token (of the two theme
tokens) is present on the body and on the toggle control, and running
`applyLayout` again with the same value leaves the class lists unchanged
(idempotence). -/
theorem applyLayout_exclusive_idem (d : Dom) (v : JsValue)
    (h : App.isTheme v = true) :
    ∃ s, v = JsValue.str s ∧ s ∈ App.THEMES ∧
      ("theme--" ++ s) ∈ (App.applyLayout v d).body ∧
      (∀ t ∈ App.THEMES, t ≠ s → ("theme--" ++ t) ∉ (App.applyLayout v d).body) ∧
      ("theme__switch--" ++ s) ∈ (App.applyLayout v d).toggleCtl ∧
      (∀ t ∈ App.THEMES, t ≠ s →
        ("theme__switch--" ++ t) ∉ (App.applyLayout v d).toggleCtl) ∧
      App.applyLayout v (App.applyLayout v d) = App.applyLayout v d := by
  rcases (isTheme_iff v).mp h with hv | hv <;> subst hv
  · refine ⟨"light", rfl, by decide, ?_, ?_, ?_, ?_, ?_⟩
    · rw [applyLayout_light]
      exact mem_classAdd_self _ _
    · intro t ht hne
      have hd : t = "dark" := by
        simp only [App.THEMES, List.mem_cons, List.not_mem_nil, or_false] at ht
        exact ht.resolve_left hne
      subst hd
      rw [applyLayout_light]
      intro hmem
      rw [mem_classAdd_ne _ (by decide)] at hmem
      exact not_mem_classRemove_self _ _ hmem
    · rw [applyLayout_light]
      exact mem_classAdd_self _ _
    · intro t ht hne
      have hd : t = "dark" := by
        simp only [App.THEMES, List.mem_cons, List.not_mem_nil, or_false] at ht
        exact ht.resolve_left hne
      subst hd
      rw [applyLayout_light]
      intro hmem
      rw [mem_classAdd_ne _ (by decide)] at hmem
      exact not_mem_classRemove_self _ _ hmem
    · rw [applyLayout_light d, applyLayout_light]
      simp only [Dom.mk.injEq]
      exact ⟨addRemove_stable_first d.body "theme--light" "theme--dark",
        addRemove_stable_first d.toggleCtl "theme__switch--light" "theme__switch--dark"⟩
  · refine ⟨"dark", rfl, by decide, ?_, ?_, ?_, ?_, ?_⟩
    · rw [applyLayout_dark]
      exact mem_classAdd_self _ _
    · intro t ht hne
      have hl : t = "light" := by
        simp only [App.THEMES, List.mem_cons, List.not_mem_nil, or_false] at ht
        exact ht.resolve_right hne
      subst hl
      rw [applyLayout_dark]
      intro hmem
      rw [mem_classAdd_ne _ (by decide)] at hmem
      rw [mem_classRemove_ne _ (by decide)] at hmem
      exact not_mem_classRemove_self _ _ hmem
    · rw [applyLayout_dark]
      exact mem_classAdd_self _ _
    · intro t ht hne
      have hl : t = "light" := by
        simp only [App.THEMES, List.mem_cons, List.not_mem_nil, or_false] at ht
        exact ht.resolve_right hne
      subst hl
      rw [applyLayout_dark]
      intro hmem
      rw [mem_classAdd_ne _ (by decide)] at hmem
      rw [mem_classRemove_ne _ (by decide)] at hmem
      exact not_mem_classRemove_self _ _ hmem
    · rw [applyLayout_dark d, applyLayout_dark]
      simp only [Dom.mk.injEq]
      exact ⟨addRemove_stable_second d.body "theme--light" "theme--dark" (by decide),
        addRemove_stable_second d.toggleCtl "theme__switch--light" "theme__switch--dark"
          (by decide)⟩

/-- C7 witness: applying `"dark"` to the page as served. -/
theorem applyLayout_exclusive_idem_witness :
    App.isTheme (JsValue.str "dark") = true ∧
    (∃ s, JsValue.str "dark" = JsValue.str s ∧ s ∈ App.THEMES ∧
      ("theme--" ++ s) ∈ (App.applyLayout (JsValue.str "dark") dom0).body ∧
      (∀ t ∈ App.THEMES, t ≠ s →
        ("theme--" ++ t) ∉ (App.applyLayout (JsValue.str "dark") dom0).body) ∧
      ("theme__switch--" ++ s) ∈ (App.applyLayout (JsValue.str "dark") dom0).toggleCtl ∧
      (∀ t ∈ App.THEMES, t ≠ s →
        ("theme__switch--" ++ t) ∉ (App.applyLayout (JsValue.str "dark") dom0).toggleCtl) ∧
      App.applyLayout (JsValue.str "dark") (App.applyLayout (JsValue.str "dark") dom0)
        = App.applyLayout (JsValue.str "dark") dom0) :=
  ⟨by decide, applyLayout_exclusive_idem dom0 (JsValue.str "dark") (by decide)⟩

/-- C8: for any value that is not a member of the theme enumeration,
`applyLayout` is a no-op: it leaves both class lists exactly as they
were (and, being a total function, it does not throw). -/
theorem applyLayout_invalid_noop (d : Dom) (v : JsValue)
    (h : App.isTheme v = false) :
    App.applyLayout v d = d := by
  simp [App.applyLayout, h]

/-- C8 witness: the invalid value `"blue"` leaves the served page
untouched. -/
theorem applyLayout_invalid_noop_witness :
    App.isTheme (JsValue.str "blue") = false ∧
    App.applyLayout (JsValue.str "blue") dom0 = dom0 :=
  ⟨by decide, applyLayout_invalid_noop dom0 (JsValue.str "blue") (by decide)⟩

/-- C9: `saveTheme` writes to storage only for a member theme value — in
which case it returns the write's success indicator — and for any other
value performs no write at all and returns `undefined` (`none`); hence
any key whose content changes is the fixed key `theme` and the value
written is the serialization of `"light"` or `"dark"`. -/
theorem saveTheme_writes_only_valid (v : JsValue) (wf : Bool) (st : Store) :
    (App.isTheme v = false → App.saveTheme v wf st = (none, st)) ∧
    (App.isTheme v = true →
      (App.saveTheme v false st).1 = some true ∧
      (App.saveTheme v true st).1 = some false ∧
      (App.saveTheme v true st).2 = st ∧
      (App.saveTheme v false st).2 "theme" = some (jsonStringify v)) ∧
    (∀ k, (App.saveTheme v wf st).2 k ≠ st k →
      (v = JsValue.str "light" ∨ v = JsValue.str "dark") ∧ k = "theme" ∧
      (App.saveTheme v wf st).2 k = some (jsonStringify v)) := by
  refine ⟨fun h => ?_, fun h => ?_, fun k hk => ?_⟩
  · simp [App.saveTheme, h]
  · refine ⟨?_, ?_, ?_, ?_⟩ <;> simp [App.saveTheme, App.lsSet, h, storeSet]
  · by_cases hv : App.isTheme v = true
    · cases wf
      · have hst : (App.saveTheme v false st).2
            = storeSet st "theme" (jsonStringify v) := by
          simp [App.saveTheme, App.lsSet, hv]
        rw [hst] at hk ⊢
        by_cases hkt : k = "theme"
        · subst hkt
          exact ⟨(isTheme_iff v).mp hv, rfl, by simp [storeSet]⟩
        · exact absurd (by simp [storeSet, hkt]) hk
      · have hst : (App.saveTheme v true st).2 = st := by
          simp [App.saveTheme, App.lsSet, hv]
        rw [hst] at hk
        exact absurd rfl hk
    · have hv' : App.isTheme v = false := by
        simp only [Bool.not_eq_true] at hv
        exact hv
      have hst : (App.saveTheme v wf st).2 = st := by
        simp [App.saveTheme, hv']
      rw [hst] at hk
      exact absurd rfl hk

/-- C9 witness: the invalid value `"blue"` is not written and yields
`undefined`. -/
theorem saveTheme_writes_only_valid_witness :
    App.isTheme (JsValue.str "blue") = false ∧
    App.saveTheme (JsValue.str "blue") false emptyStore = (none, emptyStore) :=
  ⟨by decide, (saveTheme_writes_only_valid (JsValue.str "blue") false emptyStore).1 (by decide)⟩

/-- C10 counterexample: the current value `"light"` is not equal to
`"dark"`, yet `toggleCurrentTheme` returns `"dark"`, not `"light"`, so
the claim's guard "not equal to `'dark'`" is wrong. -/
theorem toggle_at_light_gives_dark :
    JsValue.str "light" ≠ JsValue.str "dark" ∧
    App.toggleCurrentTheme (JsValue.str "light") = some "dark" ∧
    ("dark" : String) ≠ "light" :=
  ⟨by decide, rfl, by decide⟩

/-- C10 amended: for every current value not equal to the string
`"light"` — including invalid values such as `null` or `"blue"` —
`toggleCurrentTheme` returns `"light"`; for current value `"light"` it
returns `"dark"`; hence a single toggle click always yields a valid
member. -/
theorem toggle_result_valid (v : JsValue) :
    (v ≠ JsValue.str "light" → App.toggleCurrentTheme v = some "light") ∧
    (v = JsValue.str "light" → App.toggleCurrentTheme v = some "dark") ∧
    (∀ s, App.toggleCurrentTheme v = some s → App.isTheme (JsValue.str s) = true) := by
  refine ⟨fun h => ?_, fun h => ?_, fun s hs => ?_⟩
  · rw [toggle_eq, if_neg h]
  · rw [toggle_eq, if_pos h]
  · rw [toggle_eq] at hs
    by_cases hv : v = JsValue.str "light"
    · rw [if_pos hv] at hs
      cases hs
      decide
    · rw [if_neg hv] at hs
      cases hs
      decide

/-- C10 witness: from the invalid current value `null`, one toggle yields
`"light"`. -/
theorem toggle_result_valid_witness :
    JsValue.null ≠ JsValue.str "light" ∧
    App.toggleCurrentTheme JsValue.null = some "light" :=
  ⟨by decide, (toggle_result_valid JsValue.null).1 (by decide)⟩
